import Mathlib

/-!
Shallow embedding of the enrichment orchestration pipeline of the THF_2025
repository (`improved_enrichment.py` and `enhanced_apify_enrichment.py`),
together with theorems settling the specification claims.

Modelling conventions:
* Python dict-field truthiness is modelled with `Bool` ("the canonical field
  is present and truthy") or `Option` ("the dict / string is present and
  truthy"; an empty dict or empty string, being falsy in Python, is `none`).
* HTTP interactions are environment-determined: their outcomes are inputs of
  the embedded functions.
* `datetime` arithmetic is folded into an input: an existing record's
  `Last Updated` property is `none` when the property or its
  `last_edited_time` is absent, `some none` when the timestamp fails to
  parse, and `some (some d)` when it parses with a whole-day age of `d`.
-/

namespace THF

/-- Truthiness of the six canonical contact-provider fields consulted by
`_calculate_completeness` and `_assess_data_confidence`
(`improved_enrichment.py`): `email`, `phone`, `title`, `company`, `city`,
`linkedin_url`.  `title` and `city` are padded with a leading blank in the
field names below only where Lean requires it; here they are plain fields. -/
structure ApolloData where
  email : Bool
  phone : Bool
  title : Bool
  company : Bool
  city : Bool
  linkedin_url : Bool
  deriving Repr, DecidableEq, Fintype

/-- Truthiness of the six canonical social-profile fields consulted by
`_calculate_completeness` and `_assess_data_confidence`:
`headline`, `summary`, `location`, `experience`, `education`, `skills`. -/
structure LinkedInData where
  headline : Bool
  summary : Bool
  location : Bool
  experience : Bool
  education : Bool
  skills : Bool
  deriving Repr, DecidableEq, Fintype

/-- The `apollo_fields` checklist of `_calculate_completeness`, in source
order, as the truthiness of each field of the first Apollo match. -/
def apolloFields (d : ApolloData) : List Bool :=
  [d.email, d.phone, d.title, d.company, d.city, d.linkedin_url]

/-- The `linkedin_fields` checklist of `_calculate_completeness`, in source
order. -/
def linkedinFields (d : LinkedInData) : List Bool :=
  [d.headline, d.summary, d.location, d.experience, d.education, d.skills]

/-- One step of the counting loops of `_calculate_completeness`:
`total_fields += 1`, and `filled_fields += 1` when the field is truthy.
The pair is `(total_fields, filled_fields)`. -/
def countStep (tf : Nat × Nat) (b : Bool) : Nat × Nat :=
  (tf.1 + 1, if b then tf.2 + 1 else tf.2)

/-- `_calculate_completeness` (`improved_enrichment.py:352`): iterates the
Apollo checklist when `record.apollo_data` is truthy, then the LinkedIn
checklist when `record.linkedin_data` is truthy, and returns
`int((filled_fields / total_fields) * 100)` when `total_fields > 0`, else 0.
For the totals reachable here (6 and 12) the Python float expression equals
the exact `floor (100 * filled / total)`, which is the `Nat` division used
below. -/
def calculate_completeness (apollo : Option ApolloData)
    (linkedin : Option LinkedInData) : Nat :=
  let tf0 : Nat × Nat := (0, 0)
  let tf1 := match apollo with
    | some d => (apolloFields d).foldl countStep tf0
    | none => tf0
  let tf2 := match linkedin with
    | some d => (linkedinFields d).foldl countStep tf1
    | none => tf1
  if tf2.1 > 0 then tf2.2 * 100 / tf2.1 else 0

/-- `_assess_data_confidence`'s accumulated `confidence_score`
(`improved_enrichment.py:376`): +30 Apollo email, +20 Apollo phone,
+10 Apollo company, +15 LinkedIn headline, +15 LinkedIn experience,
+10 LinkedIn education, each gated on the provider's data being truthy. -/
def confidence_points (apollo : Option ApolloData)
    (linkedin : Option LinkedInData) : Nat :=
  (match apollo with
   | some d =>
       (if d.email then 30 else 0) + (if d.phone then 20 else 0) +
         (if d.company then 10 else 0)
   | none => 0) +
  (match linkedin with
   | some d =>
       (if d.headline then 15 else 0) + (if d.experience then 15 else 0) +
         (if d.education then 10 else 0)
   | none => 0)

/-- `_assess_data_confidence`'s final bucketing: `High` at score ≥ 70,
`Medium` at score ≥ 40, else `Low`. -/
def assess_data_confidence (apollo : Option ApolloData)
    (linkedin : Option LinkedInData) : String :=
  let s := confidence_points apollo linkedin
  if 70 ≤ s then "High" else if 40 ≤ s then "Medium" else "Low"

/-- Step 7 of `enrich_person_complete` (`improved_enrichment.py:124`), also
`_determine_enrichment_status` (`enhanced_apify_enrichment.py:692`): when the
error list is truthy the status is `Partial` if either provider's data is
truthy and `Failed` otherwise; with an empty error list it is `Completed`. -/
def determine_enrichment_status (errors : List String)
    (hasApollo hasLinkedin : Bool) : String :=
  if errors ≠ [] then
    if hasApollo || hasLinkedin then "Partial" else "Failed"
  else "Completed"

/-- Rank of a confidence bucket in the order Low < Medium < High; any other
string (unreachable from `assess_data_confidence`) ranks lowest. -/
def confRank (s : String) : Nat :=
  if s = "High" then 2 else if s = "Medium" then 1 else 0

/-! ## The job-poll loop (`_get_actor_results`, `improved_enrichment.py:283`) -/

/-- Remote run status as reported by the provider's status endpoint.
`other` stands for every non-terminal status (READY, RUNNING, ...). -/
inductive RunStatus where
  | succeeded
  | failed
  | aborted
  | timedOut
  | other
  deriving Repr, DecidableEq

/-- The environment's behaviour at one iteration of the poll loop:
`status = none` models a `RequestException` on the status check;
`fetched` is the dataset-items response consulted only on `succeeded`
(`none` there models a `RequestException` on the results fetch);
`rtt` is the wall-clock duration of the iteration's HTTP call(s). -/
structure PollIter (α : Type) where
  status : Option RunStatus
  fetched : Option (List α)
  rtt : Nat

/-- Outcome of the poll loop, instrumented with the elapsed wall-clock time
at exit and the number of status checks performed.  `_get_actor_results`
itself collapses `noData`, `timedOut` (and an exhausted fuel bound, which is
an artefact of the embedding) to `None`; see `get_actor_results`. -/
inductive PollResult (α : Type) where
  | fuelOut (elapsed checks : Nat)
  | data (items : List α) (elapsed checks : Nat)
  | noData (elapsed checks : Nat)
  | timedOut (elapsed checks : Nat)
  deriving Repr

/-- The `while (time.time() - start_time) < max_wait_time` loop of
`_get_actor_results`.  Each iteration checks the remote status; a
`RequestException` or a FAILED/ABORTED/TIMED-OUT terminal state returns
`None` immediately (here `noData`); SUCCEEDED fetches the dataset; otherwise
the loop sleeps `interval` (15 s in the source) and repeats.  `fuel` bounds
the recursion only so the definition is total; `pollLoop_no_fuelOut` shows
`maxWait + 1` fuel is never exhausted. -/
def pollLoop {α : Type} (iters : Nat → PollIter α) (maxWait interval : Nat) :
    Nat → Nat → Nat → Nat → PollResult α
  | 0, _, elapsed, checks =>
      if elapsed < maxWait then .fuelOut elapsed checks
      else .timedOut elapsed checks
  | fuel + 1, i, elapsed, checks =>
      if elapsed < maxWait then
        let it := iters i
        match it.status with
        | none => .noData (elapsed + it.rtt) (checks + 1)
        | some .succeeded =>
            match it.fetched with
            | some items => .data items (elapsed + it.rtt) (checks + 1)
            | none => .noData (elapsed + it.rtt) (checks + 1)
        | some .failed => .noData (elapsed + it.rtt) (checks + 1)
        | some .aborted => .noData (elapsed + it.rtt) (checks + 1)
        | some .timedOut => .noData (elapsed + it.rtt) (checks + 1)
        | some .other =>
            pollLoop iters maxWait interval fuel (i + 1)
              (elapsed + it.rtt + interval) (checks + 1)
      else .timedOut elapsed checks

/-- Elapsed wall-clock time at exit of the loop. -/
def PollResult.elapsedOf {α : Type} : PollResult α → Nat
  | .fuelOut e _ => e
  | .data _ e _ => e
  | .noData e _ => e
  | .timedOut e _ => e

/-- Number of status checks performed by the loop. -/
def PollResult.checksOf {α : Type} : PollResult α → Nat
  | .fuelOut _ c => c
  | .data _ _ c => c
  | .noData _ c => c
  | .timedOut _ c => c

/-- Whether the loop exited with data. -/
def PollResult.isData {α : Type} : PollResult α → Bool
  | .data _ _ _ => true
  | _ => false

/-- `_get_actor_results`'s return value: the dataset items on success, and
`None` on every failure path (transient status-check error, terminal
failure state, local timeout).  The loop starts at time 0. -/
def get_actor_results {α : Type} (iters : Nat → PollIter α)
    (maxWait interval fuel : Nat) : Option (List α) :=
  match pollLoop iters maxWait interval fuel 0 0 0 with
  | .data items _ _ => some items
  | _ => none

/-- `_run_apollo_enrichment_safe` (`improved_enrichment.py:188`):
returns `None` when the search input is empty, the actor submission fails,
the poll yields no data, or the result list is empty; otherwise processes
the results into the canonical Apollo mapping.  The prepared search input,
the submission response and the result processing are environment /
helper-determined and passed in. -/
def run_apollo_enrichment_safe {α : Type} (searchInput : Option Unit)
    (runResponse : Option String) (iters : Nat → PollIter α)
    (fuel : Nat) (process : List α → ApolloData) : Option ApolloData :=
  match searchInput with
  | none => none
  | some _ =>
    match runResponse with
    | none => none
    | some _ =>
      match get_actor_results iters 180 15 fuel with
      | some results =>
          if results.length > 0 then some (process results) else none
      | none => none

/-! ## The orchestration (`enrich_person_complete`, `improved_enrichment.py:53`) -/

/-- The fields of `extract_person_data`'s output consulted by
`enrich_person_complete` and `_prepare_apollo_search`.  `Option String`
values are `some` exactly when the Python value is truthy (non-empty). -/
structure PersonData where
  name : String
  primary_email : Option String
  employer : Option String
  linkedin : Option String
  deriving Repr, DecidableEq

/-- The `EnrichmentRecord` dataclass (`improved_enrichment.py:15`).
The Python `errors` field is `None` or a list; `None` and `[]` are both
falsy everywhere the field is consulted, so it is modelled as a list. -/
structure EnrichmentRecord where
  person_name : String
  original_record_id : String
  apollo_data : Option ApolloData
  linkedin_data : Option LinkedInData
  enrichment_status : String
  data_confidence : String
  completeness_score : Nat
  errors : List String
  deriving Repr, DecidableEq

/-- The stored Notion page of an existing enrichment record, as consulted by
`_should_update_enrichment` and `_extract_enrichment_record` and as written
by `_store_enrichment_record`.  `last_updated` follows the convention of the
file header: `none` = absent `Last Updated` / `last_edited_time`,
`some none` = unparsable timestamp, `some (some d)` = parsed with whole-day
age `d`. -/
structure ExistingPage where
  person_name : Option String
  original_record_id : Option String
  enrichment_status : Option String
  data_confidence : Option String
  completeness_score : Option Nat
  apollo_email : Option String
  last_updated : Option (Option Int)
  deriving Repr, DecidableEq

/-- `_should_update_enrichment` (`improved_enrichment.py:168`): `True` when
the `Last Updated` timestamp is absent, `True` when it fails to parse, and
otherwise `days_since_update > 30`. -/
def should_update_enrichment (page : ExistingPage) : Bool :=
  match page.last_updated with
  | none => true
  | some none => true
  | some (some d) => 30 < d

/-- `_extract_enrichment_record` (`improved_enrichment.py:522`): rebuilds an
`EnrichmentRecord` from a stored page, reading only the person name, the
original record id and the enrichment status; every other field keeps the
dataclass default (`None` data, `"Medium"` confidence, score 0, no errors).
A missing status extracts as `"Unknown"`; missing text fields as `""`. -/
def extract_enrichment_record (page : ExistingPage) : EnrichmentRecord where
  person_name := page.person_name.getD ""
  original_record_id := page.original_record_id.getD ""
  apollo_data := none
  linkedin_data := none
  enrichment_status := page.enrichment_status.getD "Unknown"
  data_confidence := "Medium"
  completeness_score := 0
  errors := []

/-- The environment-determined outcomes consumed by one call of
`enrich_person_complete`: the person lookup, the existing-record query, the
behaviour of each provider pipeline (`.error` = an exception escaping the
safe wrapper, `.ok` = its returned value), and the persistence outcome
(`some pageId` on success, `none` on failure). -/
structure EnrichEnv where
  person : Option PersonData
  existing : Option ExistingPage
  apolloPipeline : Except String (Option ApolloData)
  linkedinPipeline : Except String (Option LinkedInData)
  storeResult : Option String

/-- Steps 3–8 of `enrich_person_complete` (after the staleness gate): run
Apollo when a primary email or employer is present, run LinkedIn when a
profile URL is present, each appending one error entry only when the safe
wrapper raises; then compute score, confidence and status, and attempt
persistence.  Returns the record together with the persistence outcome. -/
def enrichMain (person_id : String) (pd : PersonData) (env : EnrichEnv) :
    EnrichmentRecord × Option String :=
  let apolloStep : Option ApolloData × List String :=
    if pd.primary_email.isSome || pd.employer.isSome then
      match env.apolloPipeline with
      | .ok d => (d, [])
      | .error e => (none, ["Apollo enrichment failed: " ++ e])
    else (none, [])
  let linkedinStep : Option LinkedInData × List String :=
    if pd.linkedin.isSome then
      match env.linkedinPipeline with
      | .ok d => (d, [])
      | .error e => (none, ["LinkedIn enrichment failed: " ++ e])
    else (none, [])
  let errors := apolloStep.2 ++ linkedinStep.2
  let record : EnrichmentRecord :=
    { person_name := pd.name
      original_record_id := person_id
      apollo_data := apolloStep.1
      linkedin_data := linkedinStep.1
      enrichment_status :=
        determine_enrichment_status errors apolloStep.1.isSome
          linkedinStep.1.isSome
      data_confidence := assess_data_confidence apolloStep.1 linkedinStep.1
      completeness_score := calculate_completeness apolloStep.1 linkedinStep.1
      errors := errors }
  (record, env.storeResult)

/-- `enrich_person_complete` (`improved_enrichment.py:53`): person lookup
(a miss returns the `"Person not found"` record), then the staleness gate
(a fresh existing record is returned via `_extract_enrichment_record`
without running anything), then the main enrichment flow. -/
def enrich_person_complete (person_id : String) (env : EnrichEnv) :
    EnrichmentRecord × Option String :=
  match env.person with
  | none =>
      ({ person_name := "Unknown"
         original_record_id := person_id
         apollo_data := none
         linkedin_data := none
         enrichment_status := "Not Started"
         data_confidence := "Medium"
         completeness_score := 0
         errors := ["Person not found"] }, none)
  | some pd =>
    match env.existing with
    | some page =>
        if should_update_enrichment page then enrichMain person_id pd env
        else (extract_enrichment_record page, none)
    | none => enrichMain person_id pd env

/-! ## The enhanced pipeline (`enhanced_apify_enrichment.py`) -/

/-- The signals consulted by `_assess_enhanced_confidence` on
`record.apollo_data`: truthiness of `email_verified`, `phone_verified`,
`intent_data`, and the numeric `news_mentions` (default 0). -/
structure EnhApolloData where
  email_verified : Bool
  phone_verified : Bool
  intent_data : Bool
  news_mentions : Nat
  deriving Repr, DecidableEq

/-- The signals consulted by `_assess_enhanced_confidence` on
`record.linkedin_data`: `experience_count` and `connections`
(both defaulting to 0). -/
structure EnhLinkedInData where
  experience_count : Nat
  connections : Nat
  deriving Repr, DecidableEq

/-- `_assess_enhanced_confidence`'s accumulated `confidence_score`
(`enhanced_apify_enrichment.py:659`): +25 verified email, +20 verified
phone, +10 intent data, +5 news mentions > 0, +15 experience count ≥ 2,
+10 connection count ≥ 100, +15 when the analysed connections list has at
least 20 entries.  `connCount` is the length of
`record.linkedin_connections` (`none` when the list is `None`; an empty
list, falsy in Python, behaves like length 0 here). -/
def enhanced_confidence_points (apollo : Option EnhApolloData)
    (linkedin : Option EnhLinkedInData) (connCount : Option Nat) : Nat :=
  (match apollo with
   | some d =>
       (if d.email_verified then 25 else 0) +
         (if d.phone_verified then 20 else 0) +
         (if d.intent_data then 10 else 0) +
         (if 0 < d.news_mentions then 5 else 0)
   | none => 0) +
  (match linkedin with
   | some d =>
       (if 2 ≤ d.experience_count then 15 else 0) +
         (if 100 ≤ d.connections then 10 else 0)
   | none => 0) +
  (match connCount with
   | some n => if 20 ≤ n then 15 else 0
   | none => 0)

/-- `_assess_enhanced_confidence`'s final bucketing: `High` at score ≥ 80,
`Medium` at score ≥ 50, else `Low`. -/
def assess_enhanced_confidence (apollo : Option EnhApolloData)
    (linkedin : Option EnhLinkedInData) (connCount : Option Nat) : String :=
  let s := enhanced_confidence_points apollo linkedin connCount
  if 80 ≤ s then "High" else if 50 ≤ s then "Medium" else "Low"

/-- The person fields consulted by `_build_comprehensive_apollo_search`
(`enhanced_apify_enrichment.py:188`); `Option String` values are `some`
exactly when truthy. -/
structure EnhPersonData where
  name : Option String
  employer : Option String
  position : Option String
  primary_email : Option String
  city : Option String
  state : Option String
  industry : Option String
  undergrad_school : Option String
  military : Bool
  deriving Repr, DecidableEq

/-- The `criteria` dict built by `_build_comprehensive_apollo_search`;
each key is `some` exactly when the source inserted it. -/
structure SearchCriteria where
  first_name : Option String := none
  last_name : Option String := none
  organization_names : Option (List String) := none
  person_titles : Option (List String) := none
  email : Option String := none
  person_locations : Option (List String) := none
  organization_industries : Option (List String) := none
  education : Option (List String) := none
  keywords : Option (List String) := none
  deriving Repr, DecidableEq

/-- `name_parts[0]` for `name_parts = name.split(' ', 1)`. -/
def nameFirst (n : String) : String :=
  (n.splitOn " ").headD ""

/-- `name_parts[1] if len(name_parts) > 1 else ""` for a split at the first
space: rejoining everything after the first `splitOn` component reproduces
Python's one-split remainder exactly. -/
def nameLast (n : String) : String :=
  match n.splitOn " " with
  | [] => ""
  | [_] => ""
  | _ :: rest => String.intercalate " " rest

/-- The tail of `_build_comprehensive_apollo_search` after the location
block: industry, education and the fixed military keyword list. -/
def finishCriteria (c : SearchCriteria) (pd : EnhPersonData) : SearchCriteria :=
  let c := match pd.industry with
    | some i => { c with organization_industries := some [i] }
    | none => c
  let c := match pd.undergrad_school with
    | some s => { c with education := some [s] }
    | none => c
  if pd.military then
    { c with keywords := some ["veteran", "military", "navy", "army", "air force", "marines"] }
  else c

/-- `_build_comprehensive_apollo_search` (`enhanced_apify_enrichment.py:188`).
The state branch executes `criteria['person_locations'].append(...)`, which
raises `KeyError('person_locations')` when the city branch did not create
the key; the raised exception is modelled as `.error` carrying Python's
`str(e)` for that `KeyError`. -/
def build_comprehensive_apollo_search (pd : EnhPersonData) :
    Except String SearchCriteria :=
  let c : SearchCriteria := {}
  let c := match pd.name with
    | some n => { c with first_name := some (nameFirst n)
                         last_name := some (nameLast n) }
    | none => c
  let c := match pd.employer with
    | some e => { c with organization_names := some [e] }
    | none => c
  let c := match pd.position with
    | some p => { c with person_titles := some [p] }
    | none => c
  let c := match pd.primary_email with
    | some e => { c with email := some e }
    | none => c
  let c := match pd.city with
    | some city => { c with person_locations := some [city] }
    | none => c
  match pd.state with
  | some st =>
    match c.person_locations with
    | some locs =>
        .ok (finishCriteria { c with person_locations := some (locs ++ [st]) } pd)
    | none => .error "'person_locations'"
  | none => .ok (finishCriteria c pd)

/-- `_run_enhanced_apollo_enrichment` (`enhanced_apify_enrichment.py:141`):
builds the search criteria (any exception propagates to the caller), then
the submission/poll/processing — environment-determined and abstracted as
`runOutcome`, whose `none` stands for the falsy `{}` returns of the
source. -/
def run_enhanced_apollo_enrichment (pd : EnhPersonData)
    (runOutcome : SearchCriteria → Option EnhApolloData) :
    Except String (Option EnhApolloData) :=
  match build_comprehensive_apollo_search pd with
  | .error e => .error e
  | .ok c => .ok (runOutcome c)

/-- Phase 1 of `comprehensive_enrich_person`
(`enhanced_apify_enrichment.py:94`): run the enhanced Apollo enrichment when
a primary email or employer is present; an escaping exception is caught and
recorded via `_add_error`, leaving `apollo_data` as `None`.  Returns the
resulting `apollo_data` and the error entries appended by this phase. -/
def enhancedApolloPhase (pd : EnhPersonData)
    (runOutcome : SearchCriteria → Option EnhApolloData) :
    Option EnhApolloData × List String :=
  if pd.primary_email.isSome || pd.employer.isSome then
    match run_enhanced_apollo_enrichment pd runOutcome with
    | .ok d => (d, [])
    | .error e => (none, ["Apollo enrichment failed: " ++ e])
  else (none, [])

/-! ## Specification-level helpers -/

/-- Size of the checklist counted by `_calculate_completeness`: six fields
per provider whose data is present. -/
def checklistTotal (apollo : Option ApolloData)
    (linkedin : Option LinkedInData) : Nat :=
  (match apollo with | some _ => 6 | none => 0) +
    (match linkedin with | some _ => 6 | none => 0)

/-- Number of filled checklist fields across the providers counted. -/
def checklistFilled (apollo : Option ApolloData)
    (linkedin : Option LinkedInData) : Nat :=
  (match apollo with
   | some d => ((apolloFields d).filter id).length
   | none => 0) +
  (match linkedin with
   | some d => ((linkedinFields d).filter id).length
   | none => 0)

/-- Truthiness of one Apollo signal in an optional Apollo mapping. -/
def aSig (f : ApolloData → Bool) (o : Option ApolloData) : Bool :=
  match o with
  | some d => f d
  | none => false

/-- Truthiness of one LinkedIn signal in an optional LinkedIn mapping. -/
def lSig (f : LinkedInData → Bool) (o : Option LinkedInData) : Bool :=
  match o with
  | some d => f d
  | none => false

/-- Ordering on `_assess_data_confidence` inputs: every verification signal
present in the first input is present in the second. -/
def signalsLE (a a' : Option ApolloData) (l l' : Option LinkedInData) : Prop :=
  (aSig (fun d => d.email) a = true → aSig (fun d => d.email) a' = true) ∧
  (aSig (fun d => d.phone) a = true → aSig (fun d => d.phone) a' = true) ∧
  (aSig (fun d => d.company) a = true → aSig (fun d => d.company) a' = true) ∧
  (lSig (fun d => d.headline) l = true → lSig (fun d => d.headline) l' = true) ∧
  (lSig (fun d => d.experience) l = true → lSig (fun d => d.experience) l' = true) ∧
  (lSig (fun d => d.education) l = true → lSig (fun d => d.education) l' = true)

instance (a a' : Option ApolloData) (l l' : Option LinkedInData) :
    Decidable (signalsLE a a' l l') := by
  unfold signalsLE; infer_instance

/-- Truthiness of one boolean signal in an optional enhanced Apollo
mapping. -/
def eSig (f : EnhApolloData → Bool) (o : Option EnhApolloData) : Bool :=
  match o with
  | some d => f d
  | none => false

/-- Value of one numeric signal in an optional enhanced mapping
(0 when absent, like `.get(key, 0)` on a missing dict). -/
def eNum (f : EnhApolloData → Nat) (o : Option EnhApolloData) : Nat :=
  match o with
  | some d => f d
  | none => 0

/-- Value of one numeric signal in an optional enhanced LinkedIn mapping. -/
def lNum (f : EnhLinkedInData → Nat) (o : Option EnhLinkedInData) : Nat :=
  match o with
  | some d => f d
  | none => 0

/-- Length of the optional analysed-connections list (0 when absent). -/
def cNum (o : Option Nat) : Nat :=
  match o with
  | some n => n
  | none => 0

/-- Ordering on `_assess_enhanced_confidence` inputs: every boolean signal
carries over and every numeric signal does not decrease. -/
def enhSignalsLE (a a' : Option EnhApolloData) (l l' : Option EnhLinkedInData)
    (c c' : Option Nat) : Prop :=
  (eSig (fun d => d.email_verified) a = true → eSig (fun d => d.email_verified) a' = true) ∧
  (eSig (fun d => d.phone_verified) a = true → eSig (fun d => d.phone_verified) a' = true) ∧
  (eSig (fun d => d.intent_data) a = true → eSig (fun d => d.intent_data) a' = true) ∧
  eNum (fun d => d.news_mentions) a ≤ eNum (fun d => d.news_mentions) a' ∧
  lNum (fun d => d.experience_count) l ≤ lNum (fun d => d.experience_count) l' ∧
  lNum (fun d => d.connections) l ≤ lNum (fun d => d.connections) l' ∧
  cNum c ≤ cNum c'

instance (a a' : Option EnhApolloData) (l l' : Option EnhLinkedInData)
    (c c' : Option Nat) : Decidable (enhSignalsLE a a' l l' c c') := by
  unfold enhSignalsLE; infer_instance

/-- The failure modes of one poll iteration covered by the non-fatal
provider-failure claim: a `RequestException` on the status check, or a
FAILED / ABORTED / TIMED-OUT terminal remote state. -/
def failingStatus (st : Option RunStatus) : Prop :=
  st = none ∨ st = some RunStatus.failed ∨ st = some RunStatus.aborted ∨
    st = some RunStatus.timedOut

instance (st : Option RunStatus) : Decidable (failingStatus st) := by
  unfold failingStatus; infer_instance

/-- Whether the poll loop exhausted its fuel bound (an artefact of the
embedding that `pollLoop_no_fuelOut` rules out). -/
def PollResult.isFuelOut {α : Type} : PollResult α → Bool
  | .fuelOut _ _ => true
  | _ => false

/-! ## Theorems for the claims -/

set_option maxRecDepth 20000 in
/-- C7: the completeness score equals
`floor (100 * filled / total)` over the union of the fixed six-field
checklists of the providers counted; it is 0 when no provider was attempted
(both data slots absent); four of six contact-provider fields filled with no
profile data gives 66; and the score is always an integer in `[0, 100]`. -/
theorem completeness_floor_formula_C7 :
    (∀ (a : Option ApolloData) (l : Option LinkedInData),
        calculate_completeness a l =
          (if 0 < checklistTotal a l then
            100 * checklistFilled a l / checklistTotal a l
          else 0) ∧
        calculate_completeness a l ≤ 100) ∧
    calculate_completeness none none = 0 ∧
    calculate_completeness (some ⟨true, true, true, true, false, false⟩) none = 66 := by
  refine ⟨?_, by decide, by decide⟩
  decide

/-- C9: the Merge & Scoring Engine is deterministic — the completeness
score and the confidence level are pure functions of the per-provider
normalized inputs, so two invocations on identical inputs yield identical
values. -/
theorem merge_scoring_deterministic_C9 :
    ∀ (a a' : Option ApolloData) (l l' : Option LinkedInData),
      a = a' → l = l' →
      calculate_completeness a l = calculate_completeness a' l' ∧
      assess_data_confidence a l = assess_data_confidence a' l' := by
  intro a a' l l' ha hl
  subst ha
  subst hl
  exact ⟨rfl, rfl⟩

/-- Witness for C9 at a concrete input. -/
theorem merge_scoring_deterministic_C9_witness :
    calculate_completeness (some ⟨true, false, true, false, true, false⟩)
        (some ⟨true, true, false, false, false, true⟩) =
      calculate_completeness (some ⟨true, false, true, false, true, false⟩)
        (some ⟨true, true, false, false, false, true⟩) ∧
    assess_data_confidence (some ⟨true, false, true, false, true, false⟩)
        (some ⟨true, true, false, false, false, true⟩) =
      assess_data_confidence (some ⟨true, false, true, false, true, false⟩)
        (some ⟨true, true, false, false, false, true⟩) :=
  merge_scoring_deterministic_C9 _ _ _ _ rfl rfl

/-- C4: the staleness gate re-runs exactly when the whole-day age of the
record's `Last Updated` timestamp exceeds 30 (10 days: skip; 45 days:
re-run); an absent or unparsable timestamp re-runs; and with no existing
record the enrichment proceeds to the main flow. -/
theorem staleness_gate_C4 :
    (∀ (page : ExistingPage) (d : Int), page.last_updated = some (some d) →
        (should_update_enrichment page = true ↔ 30 < d)) ∧
    (∀ page : ExistingPage, page.last_updated = some (some 10) →
        should_update_enrichment page = false) ∧
    (∀ page : ExistingPage, page.last_updated = some (some 45) →
        should_update_enrichment page = true) ∧
    (∀ page : ExistingPage, page.last_updated = none →
        should_update_enrichment page = true) ∧
    (∀ page : ExistingPage, page.last_updated = some none →
        should_update_enrichment page = true) ∧
    (∀ (pid : String) (env : EnrichEnv) (pd : PersonData),
        env.person = some pd → env.existing = none →
        enrich_person_complete pid env = enrichMain pid pd env) := by
  refine ⟨?_, ?_, ?_, ?_, ?_, ?_⟩
  · intro page d h
    simp [should_update_enrichment, h]
  · intro page h
    simp [should_update_enrichment, h]
  · intro page h
    simp [should_update_enrichment, h]
  · intro page h
    simp [should_update_enrichment, h]
  · intro page h
    simp [should_update_enrichment, h]
  · intro pid env pd hp he
    simp [enrich_person_complete, hp, he]

/-- Witness for C4 at concrete pages and a concrete environment. -/
theorem staleness_gate_C4_witness :
    should_update_enrichment
        ⟨some "A", some "p", some "Completed", some "High", some 66,
          some "x", some (some 10)⟩ = false ∧
    should_update_enrichment
        ⟨some "A", some "p", some "Completed", some "High", some 66,
          some "x", some (some 45)⟩ = true ∧
    should_update_enrichment
        ⟨some "A", some "p", some "Completed", some "High", some 66,
          some "x", none⟩ = true ∧
    should_update_enrichment
        ⟨some "A", some "p", some "Completed", some "High", some 66,
          some "x", some none⟩ = true ∧
    enrich_person_complete "p"
        ⟨some ⟨"A", some "a@b.c", none, none⟩, none, Except.ok none,
          Except.ok none, some "pg"⟩ =
      enrichMain "p" ⟨"A", some "a@b.c", none, none⟩
        ⟨some ⟨"A", some "a@b.c", none, none⟩, none, Except.ok none,
          Except.ok none, some "pg"⟩ :=
  ⟨staleness_gate_C4.2.1 _ rfl, staleness_gate_C4.2.2.1 _ rfl,
    staleness_gate_C4.2.2.2.1 _ rfl, staleness_gate_C4.2.2.2.2.1 _ rfl,
    staleness_gate_C4.2.2.2.2.2 _ _ _ rfl rfl⟩

/-- C1 counterexample: an attempt whose contact provider produced data with
no errors but whose persistence failed is still reported `Completed`, so
`Completed` does not imply that persistence succeeded. -/
theorem status_persistence_counterexample_C1 :
    (enrich_person_complete "p1"
        ⟨some ⟨"Jane", some "j@x.com", none, none⟩, none,
          Except.ok (some ⟨true, true, true, true, true, true⟩),
          Except.ok none, none⟩).1.enrichment_status = "Completed" ∧
    (enrich_person_complete "p1"
        ⟨some ⟨"Jane", some "j@x.com", none, none⟩, none,
          Except.ok (some ⟨true, true, true, true, true, true⟩),
          Except.ok none, none⟩).2 = none ∧
    ¬((enrich_person_complete "p1"
        ⟨some ⟨"Jane", some "j@x.com", none, none⟩, none,
          Except.ok (some ⟨true, true, true, true, true, true⟩),
          Except.ok none, none⟩).1.enrichment_status = "Completed" ↔
      ((enrich_person_complete "p1"
          ⟨some ⟨"Jane", some "j@x.com", none, none⟩, none,
            Except.ok (some ⟨true, true, true, true, true, true⟩),
            Except.ok none, none⟩).2.isSome = true ∧
        ((enrich_person_complete "p1"
            ⟨some ⟨"Jane", some "j@x.com", none, none⟩, none,
              Except.ok (some ⟨true, true, true, true, true, true⟩),
              Except.ok none, none⟩).1.apollo_data.isSome ||
          (enrich_person_complete "p1"
            ⟨some ⟨"Jane", some "j@x.com", none, none⟩, none,
              Except.ok (some ⟨true, true, true, true, true, true⟩),
              Except.ok none, none⟩).1.linkedin_data.isSome) = true)) := by
  decide

/-- C1 amended: the final status is a function of the error list and the
provider data alone — `Completed` iff the error list is empty, `Partial`
iff it is non-empty and some provider produced data, `Failed` iff it is
non-empty and no provider produced data — and the returned record is
independent of the persistence outcome, which is decided after the status
is already set. -/
theorem status_from_errors_C1_amended :
    ∀ (errors : List String) (hasA hasL : Bool),
      (determine_enrichment_status errors hasA hasL = "Completed" ↔
        errors = []) ∧
      (determine_enrichment_status errors hasA hasL = "Partial" ↔
        errors ≠ [] ∧ (hasA || hasL) = true) ∧
      (determine_enrichment_status errors hasA hasL = "Failed" ↔
        errors ≠ [] ∧ (hasA || hasL) = false) ∧
      (∀ (pid : String) (env : EnrichEnv) (x y : Option String),
        (enrich_person_complete pid { env with storeResult := x }).1 =
          (enrich_person_complete pid { env with storeResult := y }).1) := by
  intro errors hasA hasL
  refine ⟨?_, ?_, ?_, ?_⟩
  · rcases errors with _ | ⟨e, es⟩ <;> cases hasA <;> cases hasL <;>
      simp [determine_enrichment_status]
  · rcases errors with _ | ⟨e, es⟩ <;> cases hasA <;> cases hasL <;>
      simp [determine_enrichment_status]
  · rcases errors with _ | ⟨e, es⟩ <;> cases hasA <;> cases hasL <;>
      simp [determine_enrichment_status]
  · intro pid env x y
    rcases env with ⟨p, ex, ap, lp, st⟩
    rcases p with _ | pd
    · rfl
    · rcases ex with _ | page
      · rfl
      · simp only [enrich_person_complete]
        split <;> rfl

/-- Witness for C1 amended at a concrete error list and environment. -/
theorem status_from_errors_C1_amended_witness :
    (determine_enrichment_status ["Apollo enrichment failed: boom"] true false =
        "Completed" ↔ ["Apollo enrichment failed: boom"] = ([] : List String)) ∧
    (determine_enrichment_status ["Apollo enrichment failed: boom"] true false =
        "Partial" ↔ ["Apollo enrichment failed: boom"] ≠ ([] : List String) ∧
          (true || false) = true) ∧
    (determine_enrichment_status ["Apollo enrichment failed: boom"] true false =
        "Failed" ↔ ["Apollo enrichment failed: boom"] ≠ ([] : List String) ∧
          (true || false) = false) ∧
    (∀ (pid : String) (env : EnrichEnv) (x y : Option String),
      (enrich_person_complete pid { env with storeResult := x }).1 =
        (enrich_person_complete pid { env with storeResult := y }).1) :=
  status_from_errors_C1_amended ["Apollo enrichment failed: boom"] true false

/-- C2 counterexample: a person with no primary email, no employer and no
profile URL yields a record with completeness 0 but status `Completed`
(the error list is empty), not `Failed` as claimed. -/
theorem no_provider_status_counterexample_C2 :
    (enrich_person_complete "p2"
        ⟨some ⟨"Jane Roe", none, none, none⟩, none, Except.ok none,
          Except.ok none, some "pg2"⟩).1.enrichment_status = "Completed" ∧
    (enrich_person_complete "p2"
        ⟨some ⟨"Jane Roe", none, none, none⟩, none, Except.ok none,
          Except.ok none, some "pg2"⟩).1.completeness_score = 0 ∧
    (enrich_person_complete "p2"
        ⟨some ⟨"Jane Roe", none, none, none⟩, none, Except.ok none,
          Except.ok none, some "pg2"⟩).1.apollo_data = none ∧
    (enrich_person_complete "p2"
        ⟨some ⟨"Jane Roe", none, none, none⟩, none, Except.ok none,
          Except.ok none, some "pg2"⟩).1.linkedin_data = none ∧
    ¬((enrich_person_complete "p2"
        ⟨some ⟨"Jane Roe", none, none, none⟩, none, Except.ok none,
          Except.ok none, some "pg2"⟩).1.enrichment_status = "Failed") := by
  decide

/-- C2 amended: for a person lacking both contact-provider qualifying
fields and a profile URL, no provider job is dispatched (the result does
not depend on either provider pipeline), both data slots are absent and the
completeness score is 0 — but the status is `Completed`, not `Failed`,
because the error list stays empty. -/
theorem no_provider_dispatch_C2_amended :
    ∀ (pid : String) (env : EnrichEnv) (pd : PersonData),
      env.person = some pd → env.existing = none →
      pd.primary_email = none → pd.employer = none → pd.linkedin = none →
      (enrich_person_complete pid env).1.completeness_score = 0 ∧
      (enrich_person_complete pid env).1.apollo_data = none ∧
      (enrich_person_complete pid env).1.linkedin_data = none ∧
      (enrich_person_complete pid env).1.enrichment_status = "Completed" ∧
      (enrich_person_complete pid env).1.errors = [] ∧
      (∀ (ap : Except String (Option ApolloData))
          (lp : Except String (Option LinkedInData)),
        enrich_person_complete pid
            { env with apolloPipeline := ap, linkedinPipeline := lp } =
          enrich_person_complete pid env) := by
  intro pid env pd hp hex he hemp hli
  rcases env with ⟨p, ex, ap0, lp0, st⟩
  cases hp
  cases hex
  refine ⟨?_, ?_, ?_, ?_, ?_, ?_⟩ <;>
    simp [enrich_person_complete, enrichMain, he, hemp, hli,
      determine_enrichment_status, calculate_completeness,
      assess_data_confidence, confidence_points]

/-- Witness for C2 amended at a concrete person and environment. -/
theorem no_provider_dispatch_C2_amended_witness :
    (enrich_person_complete "p2w"
        ⟨some ⟨"Jo", none, none, none⟩, none, Except.error "boom",
          Except.ok none, some "pg"⟩).1.completeness_score = 0 ∧
    (enrich_person_complete "p2w"
        ⟨some ⟨"Jo", none, none, none⟩, none, Except.error "boom",
          Except.ok none, some "pg"⟩).1.apollo_data = none ∧
    (enrich_person_complete "p2w"
        ⟨some ⟨"Jo", none, none, none⟩, none, Except.error "boom",
          Except.ok none, some "pg"⟩).1.linkedin_data = none ∧
    (enrich_person_complete "p2w"
        ⟨some ⟨"Jo", none, none, none⟩, none, Except.error "boom",
          Except.ok none, some "pg"⟩).1.enrichment_status = "Completed" ∧
    (enrich_person_complete "p2w"
        ⟨some ⟨"Jo", none, none, none⟩, none, Except.error "boom",
          Except.ok none, some "pg"⟩).1.errors = [] ∧
    (∀ (ap : Except String (Option ApolloData))
        (lp : Except String (Option LinkedInData)),
      enrich_person_complete "p2w"
          { (⟨some ⟨"Jo", none, none, none⟩, none, Except.error "boom",
              Except.ok none, some "pg"⟩ : EnrichEnv) with
            apolloPipeline := ap, linkedinPipeline := lp } =
        enrich_person_complete "p2w"
          ⟨some ⟨"Jo", none, none, none⟩, none, Except.error "boom",
            Except.ok none, some "pg"⟩) :=
  no_provider_dispatch_C2_amended "p2w" _ ⟨"Jo", none, none, none⟩
    rfl rfl rfl rfl rfl

/-- C5 counterexample: skipping a fresh existing record does not return the
stored record unchanged — a page storing completeness score 66 and
confidence `High` comes back as a record with score 0 and confidence
`Medium`. -/
theorem skip_returns_defaults_counterexample_C5 :
    (enrich_person_complete "p5"
        ⟨some ⟨"Ann", some "ann@x.com", none, none⟩,
          some ⟨some "Ann", some "p5", some "Completed", some "High",
            some 66, some "ann@x.com", some (some 10)⟩,
          Except.ok none, Except.ok none, some "pg"⟩).1.completeness_score = 0 ∧
    (⟨some "Ann", some "p5", some "Completed", some "High", some 66,
        some "ann@x.com", some (some 10)⟩ : ExistingPage).completeness_score =
      some 66 ∧
    ¬((enrich_person_complete "p5"
        ⟨some ⟨"Ann", some "ann@x.com", none, none⟩,
          some ⟨some "Ann", some "p5", some "Completed", some "High",
            some 66, some "ann@x.com", some (some 10)⟩,
          Except.ok none, Except.ok none, some "pg"⟩).1.completeness_score = 66) ∧
    (enrich_person_complete "p5"
        ⟨some ⟨"Ann", some "ann@x.com", none, none⟩,
          some ⟨some "Ann", some "p5", some "Completed", some "High",
            some 66, some "ann@x.com", some (some 10)⟩,
          Except.ok none, Except.ok none, some "pg"⟩).1.data_confidence =
      "Medium" ∧
    ¬((enrich_person_complete "p5"
        ⟨some ⟨"Ann", some "ann@x.com", none, none⟩,
          some ⟨some "Ann", some "p5", some "Completed", some "High",
            some 66, some "ann@x.com", some (some 10)⟩,
          Except.ok none, Except.ok none, some "pg"⟩).1.data_confidence =
      "High") := by
  decide

/-- C5 amended: when the staleness gate skips, the operation returns the
record rebuilt by `_extract_enrichment_record`: the person name, original
record id and enrichment status are read back from the stored page, while
the per-provider data, completeness score, confidence level and error list
are reset to the dataclass defaults (`none`, 0, `Medium`, empty). -/
theorem skip_returns_extracted_C5_amended :
    ∀ (pid : String) (env : EnrichEnv) (pd : PersonData) (page : ExistingPage),
      env.person = some pd → env.existing = some page →
      should_update_enrichment page = false →
      enrich_person_complete pid env = (extract_enrichment_record page, none) ∧
      (enrich_person_complete pid env).1.person_name =
        page.person_name.getD "" ∧
      (enrich_person_complete pid env).1.original_record_id =
        page.original_record_id.getD "" ∧
      (enrich_person_complete pid env).1.enrichment_status =
        page.enrichment_status.getD "Unknown" ∧
      (enrich_person_complete pid env).1.apollo_data = none ∧
      (enrich_person_complete pid env).1.linkedin_data = none ∧
      (enrich_person_complete pid env).1.completeness_score = 0 ∧
      (enrich_person_complete pid env).1.data_confidence = "Medium" ∧
      (enrich_person_complete pid env).1.errors = [] := by
  intro pid env pd page hp hex hskip
  rcases env with ⟨p, ex, ap0, lp0, st⟩
  cases hp
  cases hex
  refine ⟨?_, ?_, ?_, ?_, ?_, ?_, ?_, ?_, ?_⟩ <;>
    simp [enrich_person_complete, extract_enrichment_record, hskip]

/-- Witness for C5 amended at a concrete fresh page. -/
theorem skip_returns_extracted_C5_amended_witness :
    enrich_person_complete "p5w"
        ⟨some ⟨"Bo", some "bo@x.com", none, none⟩,
          some ⟨some "Bo", some "p5w", some "Partial", some "Low", some 33,
            none, some (some 3)⟩,
          Except.ok none, Except.ok none, some "pg"⟩ =
      (extract_enrichment_record
        ⟨some "Bo", some "p5w", some "Partial", some "Low", some 33, none,
          some (some 3)⟩, none) ∧
    (enrich_person_complete "p5w"
        ⟨some ⟨"Bo", some "bo@x.com", none, none⟩,
          some ⟨some "Bo", some "p5w", some "Partial", some "Low", some 33,
            none, some (some 3)⟩,
          Except.ok none, Except.ok none, some "pg"⟩).1.person_name =
      (⟨some "Bo", some "p5w", some "Partial", some "Low", some 33, none,
          some (some 3)⟩ : ExistingPage).person_name.getD "" ∧
    (enrich_person_complete "p5w"
        ⟨some ⟨"Bo", some "bo@x.com", none, none⟩,
          some ⟨some "Bo", some "p5w", some "Partial", some "Low", some 33,
            none, some (some 3)⟩,
          Except.ok none, Except.ok none, some "pg"⟩).1.original_record_id =
      (⟨some "Bo", some "p5w", some "Partial", some "Low", some 33, none,
          some (some 3)⟩ : ExistingPage).original_record_id.getD "" ∧
    (enrich_person_complete "p5w"
        ⟨some ⟨"Bo", some "bo@x.com", none, none⟩,
          some ⟨some "Bo", some "p5w", some "Partial", some "Low", some 33,
            none, some (some 3)⟩,
          Except.ok none, Except.ok none, some "pg"⟩).1.enrichment_status =
      (⟨some "Bo", some "p5w", some "Partial", some "Low", some 33, none,
          some (some 3)⟩ : ExistingPage).enrichment_status.getD "Unknown" ∧
    (enrich_person_complete "p5w"
        ⟨some ⟨"Bo", some "bo@x.com", none, none⟩,
          some ⟨some "Bo", some "p5w", some "Partial", some "Low", some 33,
            none, some (some 3)⟩,
          Except.ok none, Except.ok none, some "pg"⟩).1.apollo_data = none ∧
    (enrich_person_complete "p5w"
        ⟨some ⟨"Bo", some "bo@x.com", none, none⟩,
          some ⟨some "Bo", some "p5w", some "Partial", some "Low", some 33,
            none, some (some 3)⟩,
          Except.ok none, Except.ok none, some "pg"⟩).1.linkedin_data = none ∧
    (enrich_person_complete "p5w"
        ⟨some ⟨"Bo", some "bo@x.com", none, none⟩,
          some ⟨some "Bo", some "p5w", some "Partial", some "Low", some 33,
            none, some (some 3)⟩,
          Except.ok none, Except.ok none, some "pg"⟩).1.completeness_score = 0 ∧
    (enrich_person_complete "p5w"
        ⟨some ⟨"Bo", some "bo@x.com", none, none⟩,
          some ⟨some "Bo", some "p5w", some "Partial", some "Low", some 33,
            none, some (some 3)⟩,
          Except.ok none, Except.ok none, some "pg"⟩).1.data_confidence =
      "Medium" ∧
    (enrich_person_complete "p5w"
        ⟨some ⟨"Bo", some "bo@x.com", none, none⟩,
          some ⟨some "Bo", some "p5w", some "Partial", some "Low", some 33,
            none, some (some 3)⟩,
          Except.ok none, Except.ok none, some "pg"⟩).1.errors = [] :=
  skip_returns_extracted_C5_amended "p5w" _ ⟨"Bo", some "bo@x.com", none, none⟩
    ⟨some "Bo", some "p5w", some "Partial", some "Low", some 33, none,
      some (some 3)⟩ rfl rfl rfl

/-- C10: a person whose data has a truthy `state` but no truthy `city`
makes `_build_comprehensive_apollo_search` raise
`KeyError('person_locations')` (the state branch appends to a list only the
city branch creates), so the contact-provider pipeline yields no data even
when an email or employer is present — the exception is caught one level up
with one error entry and `apollo_data` left absent. -/
theorem apollo_search_state_keyerror_C10 :
    ∀ (pd : EnhPersonData) (st : String)
      (r : SearchCriteria → Option EnhApolloData),
      pd.state = some st → pd.city = none →
      (pd.primary_email.isSome || pd.employer.isSome) = true →
      build_comprehensive_apollo_search pd =
        Except.error "'person_locations'" ∧
      enhancedApolloPhase pd r =
        (none, ["Apollo enrichment failed: 'person_locations'"]) := by
  intro pd st r hst hcity hqual
  have hbuild : build_comprehensive_apollo_search pd =
      Except.error "'person_locations'" := by
    rcases hn : pd.name with _ | n <;>
    rcases he : pd.employer with _ | e <;>
    rcases hp : pd.position with _ | p <;>
    rcases hpe : pd.primary_email with _ | pe <;>
      simp [build_comprehensive_apollo_search, hn, he, hp, hpe, hcity, hst]
  refine ⟨hbuild, ?_⟩
  simp [enhancedApolloPhase, run_enhanced_apollo_enrichment, hbuild, hqual]

/-- Witness for C10 at a concrete person with a state, no city, and both an
email and an employer. -/
theorem apollo_search_state_keyerror_C10_witness :
    build_comprehensive_apollo_search
        ⟨some "Sam Vet", some "ACME", none, some "s@x.com", none, some "TX",
          none, none, false⟩ =
      Except.error "'person_locations'" ∧
    enhancedApolloPhase
        ⟨some "Sam Vet", some "ACME", none, some "s@x.com", none, some "TX",
          none, none, false⟩ (fun _ => none) =
      (none, ["Apollo enrichment failed: 'person_locations'"]) :=
  apollo_search_state_keyerror_C10
    ⟨some "Sam Vet", some "ACME", none, some "s@x.com", none, some "TX",
      none, none, false⟩ "TX" (fun _ => none) rfl rfl rfl

/-- A signal that persists cannot decrease an `if`-gated contribution. -/
theorem if_signal_mono {b b' : Bool} (k : Nat) (h : b = true → b' = true) :
    (if b then k else 0) ≤ (if b' then k else 0) := by
  cases b <;> cases b' <;> simp_all

/-- A threshold test on a non-decreasing quantity cannot decrease an
`if`-gated contribution. -/
theorem if_threshold_mono (t k : Nat) {n n' : Nat} (h : n ≤ n') :
    (if t ≤ n then k else 0) ≤ (if t ≤ n' then k else 0) := by
  split_ifs <;> omega

/-- A positivity test on a non-decreasing quantity cannot decrease an
`if`-gated contribution. -/
theorem if_pos_mono (k : Nat) {n n' : Nat} (h : n ≤ n') :
    (if 0 < n then k else 0) ≤ (if 0 < n' then k else 0) := by
  split_ifs <;> omega

/-- Three-way threshold bucketing is monotone in the accumulated score. -/
theorem confRank_thresholds_mono (hi med : Nat) {s s' : Nat} (h : s ≤ s') :
    confRank (if hi ≤ s then "High" else if med ≤ s then "Medium" else "Low") ≤
      confRank
        (if hi ≤ s' then "High" else if med ≤ s' then "Medium" else "Low") := by
  split_ifs <;> first | decide | omega

/-- `confidence_points` as a sum of six signal-gated contributions. -/
theorem confidence_points_eq (a : Option ApolloData)
    (l : Option LinkedInData) :
    confidence_points a l =
      ((if aSig (fun d => d.email) a then 30 else 0) +
          (if aSig (fun d => d.phone) a then 20 else 0) +
          (if aSig (fun d => d.company) a then 10 else 0)) +
        ((if lSig (fun d => d.headline) l then 15 else 0) +
          (if lSig (fun d => d.experience) l then 15 else 0) +
          (if lSig (fun d => d.education) l then 10 else 0)) := by
  cases a <;> cases l <;> simp [confidence_points, aSig, lSig]

/-- `enhanced_confidence_points` as a sum of seven signal-gated
contributions. -/
theorem enhanced_points_eq (a : Option EnhApolloData)
    (l : Option EnhLinkedInData) (c : Option Nat) :
    enhanced_confidence_points a l c =
      ((if eSig (fun d => d.email_verified) a then 25 else 0) +
          (if eSig (fun d => d.phone_verified) a then 20 else 0) +
          (if eSig (fun d => d.intent_data) a then 10 else 0) +
          (if 0 < eNum (fun d => d.news_mentions) a then 5 else 0)) +
        ((if 2 ≤ lNum (fun d => d.experience_count) l then 15 else 0) +
          (if 100 ≤ lNum (fun d => d.connections) l then 10 else 0)) +
        (if 20 ≤ cNum c then 15 else 0) := by
  cases a <;> cases l <;> cases c <;>
    simp [enhanced_confidence_points, eSig, eNum, lNum, cNum]

/-- C8: confidence bucketing is monotone in the verification signals, for
both the base assessor (`_assess_data_confidence`) and the enhanced
assessor (`_assess_enhanced_confidence`): an input whose signal set
contains the first input's never receives a lower bucket in the order
Low < Medium < High. -/
theorem confidence_monotone_C8 :
    (∀ (a a' : Option ApolloData) (l l' : Option LinkedInData),
        signalsLE a a' l l' →
        confRank (assess_data_confidence a l) ≤
          confRank (assess_data_confidence a' l')) ∧
    (∀ (ea ea' : Option EnhApolloData) (el el' : Option EnhLinkedInData)
        (c c' : Option Nat),
        enhSignalsLE ea ea' el el' c c' →
        confRank (assess_enhanced_confidence ea el c) ≤
          confRank (assess_enhanced_confidence ea' el' c')) := by
  constructor
  · intro a a' l l' hle
    obtain ⟨h1, h2, h3, h4, h5, h6⟩ := hle
    have hpts : confidence_points a l ≤ confidence_points a' l' := by
      rw [confidence_points_eq, confidence_points_eq]
      exact Nat.add_le_add
        (Nat.add_le_add (Nat.add_le_add (if_signal_mono 30 h1)
          (if_signal_mono 20 h2)) (if_signal_mono 10 h3))
        (Nat.add_le_add (Nat.add_le_add (if_signal_mono 15 h4)
          (if_signal_mono 15 h5)) (if_signal_mono 10 h6))
    unfold assess_data_confidence
    exact confRank_thresholds_mono 70 40 hpts
  · intro ea ea' el el' c c' hle
    obtain ⟨h1, h2, h3, h4, h5, h6, h7⟩ := hle
    have hpts : enhanced_confidence_points ea el c ≤
        enhanced_confidence_points ea' el' c' := by
      rw [enhanced_points_eq, enhanced_points_eq]
      exact Nat.add_le_add
        (Nat.add_le_add
          (Nat.add_le_add (Nat.add_le_add (Nat.add_le_add
            (if_signal_mono 25 h1) (if_signal_mono 20 h2))
            (if_signal_mono 10 h3)) (if_pos_mono 5 h4))
          (Nat.add_le_add (if_threshold_mono 2 15 h5)
            (if_threshold_mono 100 10 h6)))
        (if_threshold_mono 20 15 h7)
    unfold assess_enhanced_confidence
    exact confRank_thresholds_mono 80 50 hpts

/-- Witness for C8: adding a verified-email signal to a concrete input for
each assessor. -/
theorem confidence_monotone_C8_witness :
    (signalsLE (some ⟨false, true, false, true, false, false⟩)
        (some ⟨true, true, false, true, false, false⟩) none none ∧
      confRank (assess_data_confidence
          (some ⟨false, true, false, true, false, false⟩) none) ≤
        confRank (assess_data_confidence
          (some ⟨true, true, false, true, false, false⟩) none)) ∧
    (enhSignalsLE (some ⟨false, true, true, 0⟩) (some ⟨true, true, true, 0⟩)
        (some ⟨1, 50⟩) (some ⟨1, 50⟩) none none ∧
      confRank (assess_enhanced_confidence (some ⟨false, true, true, 0⟩)
          (some ⟨1, 50⟩) none) ≤
        confRank (assess_enhanced_confidence (some ⟨true, true, true, 0⟩)
          (some ⟨1, 50⟩) none)) :=
  ⟨⟨by decide, confidence_monotone_C8.1 _ _ _ _ (by decide)⟩,
    ⟨by decide, confidence_monotone_C8.2 _ _ _ _ _ _ (by decide)⟩⟩

/-- Invariant of the poll loop: starting within the wall-clock bound
`maxWait + interval + R`, with every iteration's round trip at most `R`,
the loop also exits within that bound. -/
theorem pollLoop_elapsed_le {α : Type} (iters : Nat → PollIter α)
    (W I R : Nat) (hr : ∀ j, (iters j).rtt ≤ R) :
    ∀ (fuel i elapsed checks : Nat), elapsed ≤ W + I + R →
      (pollLoop iters W I fuel i elapsed checks).elapsedOf ≤ W + I + R := by
  intro fuel
  induction fuel with
  | zero =>
    intro i elapsed checks he
    simp only [pollLoop]
    split <;> simpa [PollResult.elapsedOf] using he
  | succ fuel ih =>
    intro i elapsed checks he
    have hri := hr i
    simp only [pollLoop]
    split
    · cases hst : (iters i).status with
      | none => simp [PollResult.elapsedOf]; omega
      | some s =>
        cases s with
        | succeeded =>
            cases hf : (iters i).fetched <;> (simp [PollResult.elapsedOf]; omega)
        | failed => simp [PollResult.elapsedOf]; omega
        | aborted => simp [PollResult.elapsedOf]; omega
        | timedOut => simp [PollResult.elapsedOf]; omega
        | other =>
            exact ih (i + 1) (elapsed + (iters i).rtt + I) (checks + 1)
              (by omega)
    · simpa [PollResult.elapsedOf] using he

/-- With a positive poll interval, `maxWait` never exceeds the remaining
fuel plus the elapsed time, so the fuel bound of the embedding is never
exhausted: the loop always terminates in a real exit state. -/
theorem pollLoop_no_fuelOut {α : Type} (iters : Nat → PollIter α)
    (W I : Nat) (hI : 1 ≤ I) :
    ∀ (fuel i elapsed checks : Nat), W ≤ elapsed + fuel →
      (pollLoop iters W I fuel i elapsed checks).isFuelOut = false := by
  intro fuel
  induction fuel with
  | zero =>
    intro i elapsed checks h
    simp only [pollLoop]
    split
    · omega
    · rfl
  | succ fuel ih =>
    intro i elapsed checks h
    simp only [pollLoop]
    split
    · cases hst : (iters i).status with
      | none => rfl
      | some s =>
        cases s with
        | succeeded => cases hf : (iters i).fetched <;> rfl
        | failed => rfl
        | aborted => rfl
        | timedOut => rfl
        | other =>
            exact ih (i + 1) (elapsed + (iters i).rtt + I) (checks + 1)
              (by omega)
    · rfl

/-- With a positive poll interval, each recursion consumes at least one
time unit below `maxWait`, so the number of status checks is bounded by the
remaining wall-clock budget plus one final check. -/
theorem pollLoop_checks_le {α : Type} (iters : Nat → PollIter α)
    (W I : Nat) (hI : 1 ≤ I) :
    ∀ (fuel i elapsed checks : Nat),
      (pollLoop iters W I fuel i elapsed checks).checksOf ≤
        checks + (W - elapsed) + 1 := by
  intro fuel
  induction fuel with
  | zero =>
    intro i elapsed checks
    simp only [pollLoop]
    split <;> (simp only [PollResult.checksOf]; omega)
  | succ fuel ih =>
    intro i elapsed checks
    simp only [pollLoop]
    split
    · cases hst : (iters i).status with
      | none => simp only [PollResult.checksOf]; omega
      | some s =>
        cases s with
        | succeeded =>
            cases hf : (iters i).fetched <;>
              (simp only [PollResult.checksOf]; omega)
        | failed => simp only [PollResult.checksOf]; omega
        | aborted => simp only [PollResult.checksOf]; omega
        | timedOut => simp only [PollResult.checksOf]; omega
        | other =>
            refine le_trans
              (ih (i + 1) (elapsed + (iters i).rtt + I) (checks + 1)) ?_
            omega
    · simp only [PollResult.checksOf]; omega

/-- A loop run that never reaches the `data` exit projects to `None` in
`_get_actor_results`. -/
theorem getActorResults_eq_none {α : Type} (iters : Nat → PollIter α)
    (W I fuel : Nat)
    (h : (pollLoop iters W I fuel 0 0 0).isData = false) :
    get_actor_results iters W I fuel = none := by
  unfold get_actor_results
  cases hp : pollLoop iters W I fuel 0 0 0 <;>
    simp_all [PollResult.isData]

/-- If the first `k` status checks report a non-terminal state and check
`k` hits a failing response (request error or FAILED/ABORTED/TIMED-OUT),
the loop exits without data and performs at most `k + 1` checks — the
failing check is never retried. -/
theorem pollLoop_fail_noData {α : Type} (iters : Nat → PollIter α)
    (W I : Nat) :
    ∀ (fuel k i elapsed checks : Nat),
      (∀ j, j < k → (iters (i + j)).status = some RunStatus.other) →
      failingStatus ((iters (i + k)).status) →
      (pollLoop iters W I fuel i elapsed checks).isData = false ∧
      (pollLoop iters W I fuel i elapsed checks).checksOf ≤
        checks + k + 1 := by
  intro fuel
  induction fuel with
  | zero =>
    intro k i elapsed checks hrun hfail
    simp only [pollLoop]
    split <;> exact ⟨rfl, by simp [PollResult.checksOf]; omega⟩
  | succ fuel ih =>
    intro k i elapsed checks hrun hfail
    simp only [pollLoop]
    split
    · cases k with
      | zero =>
        rw [Nat.add_zero] at hfail
        rcases hfail with h | h | h | h <;>
          (rw [h]; exact ⟨rfl, by simp [PollResult.checksOf]⟩)
      | succ k' =>
        have h0 : (iters i).status = some RunStatus.other := by
          have h := hrun 0 (Nat.succ_pos k')
          rwa [Nat.add_zero] at h
        rw [h0]
        have hrun' : ∀ j, j < k' →
            (iters (i + 1 + j)).status = some RunStatus.other := by
          intro j hj
          have h := hrun (j + 1) (by omega)
          rwa [show i + (j + 1) = i + 1 + j by omega] at h
        have hfail' : failingStatus ((iters (i + 1 + k')).status) := by
          rwa [show i + (k' + 1) = i + 1 + k' by omega] at hfail
        obtain ⟨hd, hc⟩ := ih k' (i + 1) (elapsed + (iters i).rtt + I)
          (checks + 1) hrun' hfail'
        show (pollLoop iters W I fuel (i + 1) (elapsed + (iters i).rtt + I)
            (checks + 1)).isData = false ∧
          (pollLoop iters W I fuel (i + 1) (elapsed + (iters i).rtt + I)
            (checks + 1)).checksOf ≤ checks + (k' + 1) + 1
        exact ⟨hd, by omega⟩
    · exact ⟨rfl, by simp [PollResult.checksOf]; omega⟩

/-- If every status check reports a non-terminal state, the loop never
exits with data (it times out locally or, in the embedding, runs out of
fuel). -/
theorem pollLoop_allOther_noData {α : Type} (iters : Nat → PollIter α)
    (W I : Nat)
    (hall : ∀ j, (iters j).status = some RunStatus.other) :
    ∀ (fuel i elapsed checks : Nat),
      (pollLoop iters W I fuel i elapsed checks).isData = false := by
  intro fuel
  induction fuel with
  | zero =>
    intro i elapsed checks
    simp only [pollLoop]
    split <;> rfl
  | succ fuel ih =>
    intro i elapsed checks
    simp only [pollLoop]
    split
    · rw [hall i]
      exact ih (i + 1) _ _
    · rfl

/-- C6: the poll loop is bounded: the wall-clock time at exit is at most
`max wait + one poll interval + one status/fetch round trip`; the loop
always reaches a real exit state (the embedding's fuel bound of
`max wait + 1` is never exhausted); and the number of status checks is at
most `max wait + 1` (each iteration starts only while elapsed time is
strictly below the max wait). -/
theorem poll_loop_bounded_C6 :
    ∀ {α : Type} (iters : Nat → PollIter α) (W I R fuel : Nat),
      1 ≤ I → (∀ j, (iters j).rtt ≤ R) →
      (pollLoop iters W I fuel 0 0 0).elapsedOf ≤ W + I + R ∧
      (W + 1 ≤ fuel → (pollLoop iters W I fuel 0 0 0).isFuelOut = false) ∧
      (pollLoop iters W I fuel 0 0 0).checksOf ≤ W + 1 := by
  intro α iters W I R fuel hI hr
  refine ⟨pollLoop_elapsed_le iters W I R hr fuel 0 0 0 (by omega),
    fun hf => pollLoop_no_fuelOut iters W I hI fuel 0 0 0 (by omega), ?_⟩
  have h := pollLoop_checks_le iters W I hI fuel 0 0 0
  simpa using h

/-- Witness for C6 at the source's configuration (180 s max wait, 15 s
interval) with unit round trips and an always-running remote job. -/
theorem poll_loop_bounded_C6_witness :
    (pollLoop (fun _ => (⟨some RunStatus.other, none, 1⟩ : PollIter Unit))
        180 15 181 0 0 0).elapsedOf ≤ 180 + 15 + 1 ∧
    (180 + 1 ≤ 181 →
      (pollLoop (fun _ => (⟨some RunStatus.other, none, 1⟩ : PollIter Unit))
          180 15 181 0 0 0).isFuelOut = false) ∧
    (pollLoop (fun _ => (⟨some RunStatus.other, none, 1⟩ : PollIter Unit))
        180 15 181 0 0 0).checksOf ≤ 180 + 1 :=
  poll_loop_bounded_C6 (fun _ => ⟨some RunStatus.other, none, 1⟩) 180 15 1
    181 (by decide) (fun _ => Nat.le_refl 1)

/-- C3 counterexample: a dispatched contact-provider pipeline whose first
status check reports the FAILED terminal state yields no data, yet the
attempt's error list stays empty — not the single entry the claim
requires. -/
theorem provider_failure_counterexample_C3 :
    run_apollo_enrichment_safe (some ()) (some "run")
        (fun _ => (⟨some RunStatus.failed, none, 1⟩ : PollIter Unit)) 200
        (fun _ => ⟨true, true, true, true, true, true⟩) = none ∧
    (enrichMain "p3" ⟨"Cy", some "cy@x.com", none, none⟩
        ⟨some ⟨"Cy", some "cy@x.com", none, none⟩, none, Except.ok none,
          Except.ok none, some "pg"⟩).1.apollo_data = none ∧
    (enrichMain "p3" ⟨"Cy", some "cy@x.com", none, none⟩
        ⟨some ⟨"Cy", some "cy@x.com", none, none⟩, none, Except.ok none,
          Except.ok none, some "pg"⟩).1.errors = [] ∧
    ¬((enrichMain "p3" ⟨"Cy", some "cy@x.com", none, none⟩
        ⟨some ⟨"Cy", some "cy@x.com", none, none⟩, none, Except.ok none,
          Except.ok none, some "pg"⟩).1.errors.length = 1) := by
  decide

/-- C3 amended: a dispatched provider pipeline that fails non-fatally
(status-check request error, FAILED/ABORTED/TIMED-OUT terminal state, or
the local max wait elapsing) yields no data and does not retry the failing
poll (at most `k + 1` checks when the failure arrives at check `k`) — but
no entry is appended to the error list: the safe wrapper swallows these
failures and returns `None`, and error entries arise only from exceptions
escaping the wrapper. -/
theorem provider_failure_no_error_entry_C3_amended :
    ∀ {α : Type} (iters : Nat → PollIter α) (k fuel : Nat)
      (process : List α → ApolloData),
      (∀ j, j < k → (iters j).status = some RunStatus.other) →
      failingStatus ((iters k).status) →
      get_actor_results iters 180 15 fuel = none ∧
      (pollLoop iters 180 15 fuel 0 0 0).checksOf ≤ k + 1 ∧
      run_apollo_enrichment_safe (some ()) (some "run") iters fuel process =
        none ∧
      (∀ (pid : String) (pd : PersonData) (env : EnrichEnv),
        env.apolloPipeline = Except.ok none → pd.linkedin = none →
        (enrichMain pid pd env).1.apollo_data = none ∧
        (enrichMain pid pd env).1.errors = []) := by
  intro α iters k fuel process hrun hfail
  have hrun0 : ∀ j, j < k → (iters (0 + j)).status = some RunStatus.other := by
    intro j hj
    rw [Nat.zero_add]
    exact hrun j hj
  have hfail0 : failingStatus ((iters (0 + k)).status) := by
    rwa [Nat.zero_add]
  obtain ⟨hd, hc⟩ := pollLoop_fail_noData iters 180 15 fuel k 0 0 0
    hrun0 hfail0
  have hget : get_actor_results iters 180 15 fuel = none :=
    getActorResults_eq_none iters 180 15 fuel hd
  refine ⟨hget, by simpa using hc, ?_, ?_⟩
  · unfold run_apollo_enrichment_safe
    rw [hget]
  · intro pid pd env hap hli
    exact ⟨by simp [enrichMain, hap, hli], by simp [enrichMain, hap, hli]⟩

/-- Witness for C3 amended: the failing response arrives on the second
check (k = 1) after one RUNNING report. -/
theorem provider_failure_no_error_entry_C3_amended_witness :
    get_actor_results
        (fun j => if j = 0 then (⟨some RunStatus.other, none, 1⟩ : PollIter Unit)
          else ⟨some RunStatus.aborted, none, 1⟩) 180 15 200 = none ∧
    (pollLoop
        (fun j => if j = 0 then (⟨some RunStatus.other, none, 1⟩ : PollIter Unit)
          else ⟨some RunStatus.aborted, none, 1⟩) 180 15 200 0 0 0).checksOf ≤
      1 + 1 ∧
    run_apollo_enrichment_safe (some ()) (some "run")
        (fun j => if j = 0 then (⟨some RunStatus.other, none, 1⟩ : PollIter Unit)
          else ⟨some RunStatus.aborted, none, 1⟩) 200
        (fun _ => ⟨true, true, true, true, true, true⟩) = none ∧
    (∀ (pid : String) (pd : PersonData) (env : EnrichEnv),
      env.apolloPipeline = Except.ok none → pd.linkedin = none →
      (enrichMain pid pd env).1.apollo_data = none ∧
      (enrichMain pid pd env).1.errors = []) :=
  provider_failure_no_error_entry_C3_amended
    (fun j => if j = 0 then (⟨some RunStatus.other, none, 1⟩ : PollIter Unit)
      else ⟨some RunStatus.aborted, none, 1⟩) 1 200
    (fun _ => ⟨true, true, true, true, true, true⟩)
    (by intro j hj; interval_cases j; decide) (by decide)

end THF
